import Mathlib

/-!
Shallow embedding of `Source/Carla/Game/CarlaServer.cpp` (CARLA server
protocol engine): wire codec, agent enumeration, and the session protocol
operations.  Scalars of the simulation (`float`) are modelled exactly as
rationals; machine `uint32` error codes as `Nat`.  Collaborator classes that
live outside this translation unit (controller, vehicle, settings) are
modelled from the spec as plain records with field-setter semantics.
-/

namespace Carla

/-- Scalars: the engine's `float` values, modelled exactly. -/
abbrev Scalar := Rat

/-- `FVector`: a 3D vector of the simulation. -/
structure FVector where
  x : Scalar
  y : Scalar
  z : Scalar
  deriving DecidableEq, Repr

/-- `FVector::DotProduct`. -/
def FVector.dotProduct (a b : FVector) : Scalar :=
  a.x * b.x + a.y * b.y + a.z * b.z

/-- `FQuat`: a rotation, as stored inside `FTransform`. -/
structure FQuat where
  w : Scalar
  x : Scalar
  y : Scalar
  z : Scalar
  deriving DecidableEq, Repr

/-- `FQuat::GetForwardVector`: the rotated X axis, i.e. the forward-direction
vector of the rotation (a unit vector for a unit quaternion). -/
def FQuat.getForwardVector (q : FQuat) : FVector :=
  ⟨1 - 2 * (q.y * q.y + q.z * q.z),
   2 * (q.x * q.y + q.w * q.z),
   2 * (q.x * q.z - q.w * q.y)⟩

/-- `FTransform`: location plus rotation (scale is never read by the engine). -/
structure FTransform where
  location : FVector
  rotation : FQuat
  deriving DecidableEq, Repr

/-- `carla_vector3d` wire record. -/
structure carla_vector3d where
  x : Scalar
  y : Scalar
  z : Scalar
  deriving DecidableEq, Repr

/-- `carla_transform` wire record. -/
structure carla_transform where
  location : carla_vector3d
  orientation : carla_vector3d
  deriving DecidableEq, Repr

/-- `Set(carla_vector3d &, const FVector &)`: direct field copy. -/
def setVector3d (rhs : FVector) : carla_vector3d :=
  ⟨rhs.x, rhs.y, rhs.z⟩

/-- `Set(carla_transform &, const FTransform &)`: location copied, orientation
set to `rhs.GetRotation().GetForwardVector()`. -/
def setTransform (rhs : FTransform) : carla_transform :=
  ⟨setVector3d rhs.location, setVector3d rhs.rotation.getForwardVector⟩

/-- Log levels of `UE_LOG` calls made by the engine. -/
inductive LogLevel
  | log
  | warning
  deriving DecidableEq, Repr

/-- The messages the engine logs (structured, one constructor per call site). -/
inductive LogMsg
  | sendingEmptyImage
  | noControlReceived
  deriving DecidableEq, Repr

/-- One log record. -/
abbrev LogEntry := LogLevel × LogMsg

/-- `FCapturedImage`: a captured image handed over by the player state. The
bitmap is the list of pixel color values (`FColor::DWColor()` of each pixel). -/
structure FCapturedImage where
  SizeX : Nat
  SizeY : Nat
  PostProcessEffect : Nat
  BitMap : List Nat
  deriving DecidableEq, Repr

/-- `carla_image` wire record; `data` models the borrowed pointer to the first
pixel's color channel as the flat pixel buffer it points into (`none` = null). -/
structure carla_image where
  width : Nat
  height : Nat
  type : Nat
  data : Option (List Nat)
  deriving DecidableEq, Repr

/-- The zero-initialized `carla_image` produced by `MakeUnique<carla_image[]>`. -/
def zeroCarlaImage : carla_image :=
  ⟨0, 0, 0, none⟩

/-- `Set(carla_image &, const FCapturedImage &)`.  Modelled from the spec:
the `CARLA_SERVER_EXTRA_LOG` conditional-compilation guard enclosing the
empty-image branch is resolved as in the spec, which lists the empty-image
warning among the engine's diagnostic points; the extra per-image info log,
absent from the spec's list, is omitted.  On a non-empty bitmap the fields are
copied and `data` aimed at the first pixel's color channel; on an empty bitmap
the wire image is left untouched and a warning is emitted. -/
def setImage (cImage : carla_image) (uImage : FCapturedImage) :
    carla_image × List LogEntry :=
  if uImage.BitMap.length > 0 then
    ({ width := uImage.SizeX
       height := uImage.SizeY
       type := uImage.PostProcessEffect
       data := some uImage.BitMap },
     [])
  else
    (cImage, [(LogLevel.warning, LogMsg.sendingEmptyImage)])

/-- `ACharacter` (walker): the accessors the engine reads.  Modelled from the
spec: walkers expose per-agent transform and velocity;
`GetActorRotation().Vector()` is the actor's forward heading vector, i.e. the
forward vector of its transform's rotation. -/
structure ACharacter where
  hash : Nat
  transform : FTransform
  velocity : FVector
  deriving DecidableEq, Repr

/-- `Walker->GetActorRotation().Vector()`: the walker's heading vector. -/
def ACharacter.actorRotationVector (w : ACharacter) : FVector :=
  w.transform.rotation.getForwardVector

/-- `ACarlaWheeledVehicle`: the accessors and input setters the engine uses.
Modelled from the spec: the five input setters store the given values; the
forward-speed and bounds-extent queries are read-only per-vehicle state. -/
structure ACarlaWheeledVehicle where
  hash : Nat
  transform : FTransform
  SteeringInput : Scalar
  ThrottleInput : Scalar
  BrakeInput : Scalar
  HandbrakeInput : Bool
  Reverse : Bool
  vehicleForwardSpeed : Scalar
  vehicleBoundsExtent : FVector
  deriving DecidableEq, Repr

/-- `carla_agent` wire record. -/
structure carla_agent where
  id : Nat
  type : Nat
  transform : carla_transform
  forward_speed : Scalar
  box_extent : carla_vector3d
  deriving DecidableEq, Repr

/-- The zero-initialized `carla_agent` produced by `TArray::Emplace()`. -/
def zeroCarlaAgent : carla_agent :=
  ⟨0, 0, ⟨⟨0, 0, 0⟩, ⟨0, 0, 0⟩⟩, 0, ⟨0, 0, 0⟩⟩

/-- `SetBoxAndSpeed(carla_agent &, const ACharacter *)`: walker overload.
Speed is the velocity projected onto the heading, scaled by `0.036f`; the box
extent is the fixed constant `{45.0f, 35.0f, 100.0f}`. -/
def setBoxAndSpeedWalker (values : carla_agent) (Walker : ACharacter) :
    carla_agent :=
  { values with
    forward_speed :=
      FVector.dotProduct Walker.velocity Walker.actorRotationVector * 0.036
    box_extent := ⟨45, 35, 100⟩ }

/-- `SetBoxAndSpeed(carla_agent &, const ACarlaWheeledVehicle *)`: vehicle
overload.  Speed and box extent are queried directly from the vehicle. -/
def setBoxAndSpeedVehicle (values : carla_agent)
    (Vehicle : ACarlaWheeledVehicle) : carla_agent :=
  { values with
    forward_speed := Vehicle.vehicleForwardSpeed
    box_extent := setVector3d Vehicle.vehicleBoundsExtent }

/-- The per-kind contract used by the `AddAgents` template: C++ overload
resolution of `GetTypeHash`, `GetActorTransform` and `SetBoxAndSpeed`. -/
class AgentSource (α : Type) where
  getTypeHash : α → Nat
  getActorTransform : α → FTransform
  setBoxAndSpeed : carla_agent → α → carla_agent

instance : AgentSource ACharacter where
  getTypeHash := ACharacter.hash
  getActorTransform := ACharacter.transform
  setBoxAndSpeed := setBoxAndSpeedWalker

instance : AgentSource ACarlaWheeledVehicle where
  getTypeHash := ACarlaWheeledVehicle.hash
  getActorTransform := ACarlaWheeledVehicle.transform
  setBoxAndSpeed := setBoxAndSpeedVehicle

/-- The agent record `AddAgents` appends for one non-null actor: `Emplace()`
a zeroed record, then set id, type, transform, box and speed. -/
def agentOf {α : Type} [AgentSource α] (Actor : α) (type : Nat) : carla_agent :=
  AgentSource.setBoxAndSpeed
    { zeroCarlaAgent with
      id := AgentSource.getTypeHash Actor
      type := type
      transform := setTransform (AgentSource.getActorTransform Actor) }
    Actor

/-- `AddAgents<T>`: walks the actor array in order, skipping null entries, and
appends one agent record per non-null actor. -/
def AddAgents {α : Type} [AgentSource α] (Agents : List carla_agent)
    (Actors : List (Option α)) (type : Nat) : List carla_agent :=
  Actors.foldl
    (fun acc Actor =>
      match Actor with
      | none => acc
      | some a => acc ++ [agentOf a type])
    Agents

/-- `CARLA_SERVER_AGENT_PEDESTRIAN`.  Modelled from the spec: the wire type
tag for pedestrians, distinct from the vehicle tag. -/
def CARLA_SERVER_AGENT_PEDESTRIAN : Nat := 20

/-- `CARLA_SERVER_AGENT_VEHICLE`.  Modelled from the spec: the wire type tag
for vehicles, distinct from the pedestrian tag. -/
def CARLA_SERVER_AGENT_VEHICLE : Nat := 10

/-- The walker spawner, as read by the engine (`GetWalkersWhiteList`,
`GetWalkersBlackList`); list entries are actor pointers (possibly null). -/
structure WalkerSpawner where
  whiteList : List (Option ACharacter)
  blackList : List (Option ACharacter)
  deriving DecidableEq, Repr

/-- The vehicle spawner, as read by the engine (`GetVehicles`). -/
structure VehicleSpawner where
  vehicles : List (Option ACarlaWheeledVehicle)
  deriving DecidableEq, Repr

/-- `ACarlaGameState`: spawner pointers (possibly null). -/
structure ACarlaGameState where
  walkerSpawner : Option WalkerSpawner
  vehicleSpawner : Option VehicleSpawner
  deriving DecidableEq, Repr

/-- `GetAgentInfo`: whitelist walkers, then blacklist walkers (pedestrian
tag), then vehicles (vehicle tag); a null spawner contributes nothing.  The
`Reserve` call of the source only preallocates and is not observable. -/
def GetAgentInfo (GameState : ACarlaGameState) (Agents : List carla_agent) :
    List carla_agent :=
  let Agents :=
    match GameState.walkerSpawner with
    | none => Agents
    | some ws =>
        AddAgents (AddAgents Agents ws.whiteList CARLA_SERVER_AGENT_PEDESTRIAN)
          ws.blackList CARLA_SERVER_AGENT_PEDESTRIAN
  match GameState.vehicleSpawner with
  | none => Agents
  | some vs => AddAgents Agents vs.vehicles CARLA_SERVER_AGENT_VEHICLE

/-- `CarlaServer::ErrorCode`: the tri-state result of every operation. -/
inductive ErrorCode
  | Success
  | TryAgain
  | Error
  deriving DecidableEq, Repr

/-- `CARLA_SERVER_SUCCESS`.  Modelled from the spec: the transport's raw
success code, distinct from the try-again code. -/
def CARLA_SERVER_SUCCESS : Nat := 0

/-- `CARLA_SERVER_TRY_AGAIN`.  Modelled from the spec: the transport's raw
try-again code, distinct from the success code. -/
def CARLA_SERVER_TRY_AGAIN : Nat := 1

/-- `ParseErrorCode`: maps the raw transport code to the tri-state result. -/
def ParseErrorCode (ec : Nat) : ErrorCode :=
  if ec = CARLA_SERVER_SUCCESS then ErrorCode.Success
  else if ec = CARLA_SERVER_TRY_AGAIN then ErrorCode.TryAgain
  else ErrorCode.Error

/-- `GetTimeOut`: the effective wait handed to the transport. -/
def GetTimeOut (TimeOut : Nat) (bBlocking : Bool) : Nat :=
  if bBlocking then TimeOut else 0

/-- `carla_request_new_episode` wire record. -/
structure carla_request_new_episode where
  ini_file : String
  ini_file_length : Nat
  deriving DecidableEq, Repr

/-- `carla_scene_description` wire record. -/
structure carla_scene_description where
  player_start_spots : List carla_transform
  number_of_player_start_spots : Nat
  deriving DecidableEq, Repr

/-- `carla_episode_start` wire record. -/
structure carla_episode_start where
  player_start_spot_index : Nat
  deriving DecidableEq, Repr

/-- `carla_episode_ready` wire record. -/
structure carla_episode_ready where
  ready : Bool
  deriving DecidableEq, Repr

/-- `carla_control` wire record. -/
structure carla_control where
  steer : Scalar
  throttle : Scalar
  brake : Scalar
  hand_brake : Bool
  reverse : Bool
  autopilot : Bool
  deriving DecidableEq, Repr

/-- `carla_player_measurements` wire record. -/
structure carla_player_measurements where
  transform : carla_transform
  acceleration : carla_vector3d
  forward_speed : Scalar
  collision_vehicles : Scalar
  collision_pedestrians : Scalar
  collision_other : Scalar
  intersection_otherlane : Scalar
  intersection_offroad : Scalar
  deriving DecidableEq, Repr

/-- `carla_measurements` wire record; `non_player_agents` models the agent
array pointer (`none` = null, as passed when the agent list is empty). -/
structure carla_measurements where
  platform_timestamp : Nat
  game_timestamp : Nat
  player_measurements : carla_player_measurements
  non_player_agents : Option (List carla_agent)
  number_of_non_player_agents : Nat
  deriving DecidableEq, Repr

/-- The opaque transport channel (`carla_server.h` C API).  Each operation
takes the timeout it is allowed to wait and returns the raw result code, reads
additionally the value read.  `writeMeasurements` takes the measurements, the
image array pointer (`none` = null) and the image count, and has no timeout
parameter in the source. -/
structure Transport where
  readRequestNewEpisode : Nat → Nat × carla_request_new_episode
  writeSceneDescription : carla_scene_description → Nat → Nat
  readEpisodeStart : Nat → Nat × carla_episode_start
  writeEpisodeReady : carla_episode_ready → Nat → Nat
  readControl : Nat → Nat × carla_control
  writeMeasurements : carla_measurements → Option (List carla_image) → Nat → Nat

/-- `UCarlaSettings`.  Modelled from the spec: the configuration collaborator
accepts a text blob in a fire-and-forget parse; we record the last blob
loaded. -/
structure UCarlaSettings where
  loadedIni : Option String
  deriving DecidableEq, Repr

/-- `UCarlaSettings::LoadSettingsFromString`.  Modelled from the spec: stores
the received configuration blob. -/
def UCarlaSettings.LoadSettingsFromString (_self : UCarlaSettings)
    (ini : String) : UCarlaSettings :=
  ⟨some ini⟩

/-- `ACarlaVehicleController`.  Modelled from the spec: the controller
collaborator exposes an autopilot toggle and a possessing-a-body predicate. -/
structure ACarlaVehicleController where
  autopilot : Bool
  possessedVehicle : Option ACarlaWheeledVehicle
  deriving DecidableEq, Repr

/-- `ACarlaVehicleController::SetAutopilot`.  Modelled from the spec: sets the
controller's autopilot flag. -/
def ACarlaVehicleController.SetAutopilot (p : ACarlaVehicleController)
    (b : Bool) : ACarlaVehicleController :=
  { p with autopilot := b }

/-- `ACarlaVehicleController::IsPossessingAVehicle`. -/
def ACarlaVehicleController.IsPossessingAVehicle
    (p : ACarlaVehicleController) : Bool :=
  p.possessedVehicle.isSome

/-- `CarlaServer`: the session (port, timeout); the raw server handle is the
transport passed to each operation. -/
structure CarlaServer where
  WorldPort : Nat
  TimeOut : Nat
  deriving DecidableEq, Repr

/-- `CarlaServer::ReadNewEpisode`: reads a request, and only on `Success`
hands the configuration blob (truncated to its advertised length) to the
settings collaborator. -/
def CarlaServer.ReadNewEpisode (self : CarlaServer) (tr : Transport)
    (Settings : UCarlaSettings) (bBlocking : Bool) :
    ErrorCode × UCarlaSettings :=
  let raw := tr.readRequestNewEpisode (GetTimeOut self.TimeOut bBlocking)
  let ec := ParseErrorCode raw.1
  if ec = ErrorCode.Success then
    let IniFile := raw.2.ini_file.take raw.2.ini_file_length
    (ec, Settings.LoadSettingsFromString IniFile)
  else
    (ec, Settings)

/-- `APlayerStart`: a spawn-point actor; only its transform is read. -/
structure APlayerStart where
  transform : FTransform
  deriving DecidableEq, Repr

/-- `CarlaServer::SendSceneDescription`: encodes every start spot's transform
and writes the scene description; also returns the record written. -/
def CarlaServer.SendSceneDescription (self : CarlaServer) (tr : Transport)
    (AvailableStartSpots : List APlayerStart) (bBlocking : Bool) :
    ErrorCode × carla_scene_description :=
  let StartSpots := AvailableStartSpots.map (fun s => setTransform s.transform)
  let scene : carla_scene_description :=
    ⟨StartSpots, AvailableStartSpots.length⟩
  (ParseErrorCode
    (tr.writeSceneDescription scene (GetTimeOut self.TimeOut bBlocking)),
   scene)

/-- `CarlaServer::ReadEpisodeStart`: only on `Success` overwrites the
start-position index out-parameter with the received selection. -/
def CarlaServer.ReadEpisodeStart (self : CarlaServer) (tr : Transport)
    (StartPositionIndex : Nat) (bBlocking : Bool) : ErrorCode × Nat :=
  let raw := tr.readEpisodeStart (GetTimeOut self.TimeOut bBlocking)
  let ec := ParseErrorCode raw.1
  if ec = ErrorCode.Success then
    (ec, raw.2.player_start_spot_index)
  else
    (ec, StartPositionIndex)

/-- `CarlaServer::SendEpisodeReady`: writes the constant record `{true}`;
also returns the record written. -/
def CarlaServer.SendEpisodeReady (self : CarlaServer) (tr : Transport)
    (bBlocking : Bool) : ErrorCode × carla_episode_ready :=
  let values : carla_episode_ready := ⟨true⟩
  (ParseErrorCode
    (tr.writeEpisodeReady values (GetTimeOut self.TimeOut bBlocking)),
   values)

/-- `CarlaServer::ReadControl`.  On `Success`, sets the controller's autopilot
flag from the command; on the manual branch `check(IsPossessingAVehicle())` is
a fatal assertion (modelled as `none`), otherwise the five inputs are applied
to the possessed vehicle.  With a non-blocking call that yields `TryAgain`, a
warning is logged.  The result is `none` on assertion failure, otherwise the
error code, the controller state after the call, and the log entries. -/
def CarlaServer.ReadControl (self : CarlaServer) (tr : Transport)
    (Player : ACarlaVehicleController) (bBlocking : Bool) :
    Option (ErrorCode × ACarlaVehicleController × List LogEntry) :=
  let raw := tr.readControl (GetTimeOut self.TimeOut bBlocking)
  let values := raw.2
  let ec := ParseErrorCode raw.1
  if ec = ErrorCode.Success then
    let p := Player.SetAutopilot values.autopilot
    if !values.autopilot then
      match p.possessedVehicle with
      | none => none
      | some Vehicle =>
          let Vehicle :=
            { Vehicle with
              SteeringInput := values.steer
              ThrottleInput := values.throttle
              BrakeInput := values.brake
              HandbrakeInput := values.hand_brake
              Reverse := values.reverse }
          some (ec, { p with possessedVehicle := some Vehicle }, [])
    else
      some (ec, p, [])
  else if !bBlocking && ec = ErrorCode.TryAgain then
    some (ec, Player, [(LogLevel.warning, LogMsg.noControlReceived)])
  else
    some (ec, Player, [])

/-- `ACarlaPlayerState`: the read-only player snapshot the engine queries. -/
structure ACarlaPlayerState where
  platformTimeStamp : Nat
  gameTimeStamp : Nat
  transform : FTransform
  acceleration : FVector
  forwardSpeed : Scalar
  collisionIntensityCars : Scalar
  collisionIntensityPedestrians : Scalar
  collisionIntensityOther : Scalar
  otherLaneIntersectionFactor : Scalar
  offRoadIntersectionFactor : Scalar
  images : List FCapturedImage
  deriving DecidableEq, Repr

/-- The outcome of `CarlaServer::SendMeasurements`: the error code, the
measurements record written, the image array passed to the write (`none` =
null pointer), the image count, and the log entries emitted while encoding
images. -/
structure SendMeasurementsResult where
  ec : ErrorCode
  values : carla_measurements
  images : Option (List carla_image)
  numberOfImages : Nat
  logs : List LogEntry
  deriving DecidableEq, Repr

/-- `CarlaServer::SendMeasurements`: builds the snapshot (player kinematics,
then — only when enabled — the agent list, then the images) and performs one
write.  With zero captured images no image array is allocated and the null
pointer with count 0 is passed.  The session handle is passed as in the
source although the measurements write takes no timeout. -/
def CarlaServer.SendMeasurements (_self : CarlaServer) (tr : Transport)
    (GameState : ACarlaGameState) (PlayerState : ACarlaPlayerState)
    (bSendNonPlayerAgentsInfo : Bool) : SendMeasurementsResult :=
  let player : carla_player_measurements :=
    { transform := setTransform PlayerState.transform
      acceleration := setVector3d PlayerState.acceleration
      forward_speed := PlayerState.forwardSpeed
      collision_vehicles := PlayerState.collisionIntensityCars
      collision_pedestrians := PlayerState.collisionIntensityPedestrians
      collision_other := PlayerState.collisionIntensityOther
      intersection_otherlane := PlayerState.otherLaneIntersectionFactor
      intersection_offroad := PlayerState.offRoadIntersectionFactor }
  let Agents : List carla_agent :=
    if bSendNonPlayerAgentsInfo then GetAgentInfo GameState [] else []
  let values : carla_measurements :=
    { platform_timestamp := PlayerState.platformTimeStamp
      game_timestamp := PlayerState.gameTimeStamp
      player_measurements := player
      non_player_agents := if Agents.length > 0 then some Agents else none
      number_of_non_player_agents := Agents.length }
  let NumberOfImages := PlayerState.images.length
  let encoded : List (carla_image × List LogEntry) :=
    PlayerState.images.map (fun u => setImage zeroCarlaImage u)
  let images : Option (List carla_image) :=
    if NumberOfImages > 0 then some (encoded.map Prod.fst) else none
  let logs : List LogEntry := encoded.foldl (fun acc e => acc ++ e.2) []
  { ec := ParseErrorCode (tr.writeMeasurements values images NumberOfImages)
    values := values
    images := images
    numberOfImages := NumberOfImages
    logs := logs }

/-! Concrete sample values used to evaluate the definitions. -/

/-- A sample transform: identity rotation (forward vector along X). -/
def ftEx : FTransform :=
  ⟨⟨1, 2, 3⟩, ⟨1, 0, 0, 0⟩⟩

/-- The same location with a roll about the forward axis: the quaternion
`(w,x,y,z) = (1,1,0,0)` (a 90-degree roll, unnormalized) has the same
forward-direction vector as the identity. -/
def ftRollEx : FTransform :=
  ⟨⟨1, 2, 3⟩, ⟨1, 1, 0, 0⟩⟩

/-- A sample walker. -/
def walkerEx1 : ACharacter :=
  ⟨11, ftEx, ⟨10, 0, 0⟩⟩

/-- A second sample walker. -/
def walkerEx2 : ACharacter :=
  ⟨12, ftEx, ⟨0, 5, 0⟩⟩

/-- A sample vehicle. -/
def vehicleEx : ACarlaWheeledVehicle :=
  ⟨21, ftEx, 0, 0, 0, false, false, 14, ⟨200, 100, 80⟩⟩

/-- A game state with 2 walkers (one whitelist, one blacklist) and 1
vehicle. -/
def gsEx : ACarlaGameState :=
  ⟨some ⟨[some walkerEx1], [some walkerEx2]⟩, some ⟨[some vehicleEx]⟩⟩

/-- A sample controller possessing a vehicle. -/
def playerCtrlEx : ACarlaVehicleController :=
  ⟨true, some vehicleEx⟩

/-- A sample manual control command (autopilot off). -/
def ctrlManualEx : carla_control :=
  ⟨1 / 2, 3 / 4, 0, true, false, false⟩

/-- A sample player state carrying no captured images. -/
def psNoImagesEx : ACarlaPlayerState :=
  ⟨100, 200, ftEx, ⟨0, 0, 0⟩, 5, 0, 0, 0, 0, 0, []⟩

/-- A captured image with an empty pixel buffer. -/
def imgEmptyEx : FCapturedImage :=
  ⟨800, 600, 2, []⟩

/-- A sample session. -/
def srvEx : CarlaServer :=
  ⟨2000, 100⟩

/-- A base transport: new-episode read fails with a transport error, the
other reads yield the try-again code, writes succeed. -/
def trBaseEx : Transport where
  readRequestNewEpisode := fun _ => (2, ⟨"", 0⟩)
  writeSceneDescription := fun _ _ => 0
  readEpisodeStart := fun _ => (1, ⟨0⟩)
  writeEpisodeReady := fun _ _ => 0
  readControl := fun _ => (1, ctrlManualEx)
  writeMeasurements := fun _ _ _ => 0

/-- A transport whose control read succeeds with the manual command. -/
def trCtrlEx : Transport :=
  { trBaseEx with readControl := fun _ => (0, ctrlManualEx) }

/-- A transport whose episode-start read succeeds only when allowed to wait
(it yields try-again at a zero timeout). -/
def trTimeoutA : Transport :=
  { trBaseEx with
    readEpisodeStart := fun t => if t = 0 then (1, ⟨0⟩) else (0, ⟨7⟩) }

/-- A transport whose episode-start read always yields try-again; it agrees
with `trTimeoutA` exactly at the zero timeout. -/
def trTimeoutB : Transport :=
  { trBaseEx with readEpisodeStart := fun _ => (1, ⟨0⟩) }

/-! Theorems. -/

/-- C9: `SendEpisodeReady` always constructs the wire record `{ready: true}`
regardless of session state; two calls with any (even different) session
states produce structurally identical EpisodeReady records. -/
theorem C9_episode_ready_constant :
    (∀ (self : CarlaServer) (tr : Transport) (b : Bool),
      (CarlaServer.SendEpisodeReady self tr b).2 = ⟨true⟩) ∧
    (∀ (s1 s2 : CarlaServer) (t1 t2 : Transport) (b1 b2 : Bool),
      (CarlaServer.SendEpisodeReady s1 t1 b1).2 =
        (CarlaServer.SendEpisodeReady s2 t2 b2).2) :=
  ⟨fun _ _ _ => rfl, fun _ _ _ _ _ _ => rfl⟩

/-- C6: the walker kinematics producer returns speed = velocity · heading
scaled by 0.036 (= 9/250) and the fixed box extent (45, 35, 100); the vehicle
producer takes speed and box extent directly from the vehicle's queries. -/
theorem C6_box_and_speed :
    (∀ (values : carla_agent) (Walker : ACharacter),
      (setBoxAndSpeedWalker values Walker).forward_speed =
        (Walker.velocity.x * Walker.actorRotationVector.x +
         Walker.velocity.y * Walker.actorRotationVector.y +
         Walker.velocity.z * Walker.actorRotationVector.z) * (9 / 250) ∧
      (setBoxAndSpeedWalker values Walker).box_extent = ⟨45, 35, 100⟩) ∧
    (∀ (values : carla_agent) (Vehicle : ACarlaWheeledVehicle),
      (setBoxAndSpeedVehicle values Vehicle).forward_speed =
        Vehicle.vehicleForwardSpeed ∧
      (setBoxAndSpeedVehicle values Vehicle).box_extent =
        setVector3d Vehicle.vehicleBoundsExtent) := by
  constructor
  · intro values Walker
    constructor
    · show FVector.dotProduct Walker.velocity Walker.actorRotationVector
          * (0.036 : Scalar) = _
      norm_num [FVector.dotProduct]
    · rfl
  · exact fun _ _ => ⟨rfl, rfl⟩

/-- C5: the transform-to-wire encoding copies the location verbatim and
encodes the orientation as the rotation's forward-direction vector; hence any
two transforms with equal location and equal forward vector (e.g. differing
only by roll) encode to identical wire transforms. -/
theorem C5_transform_lossy_encoding (t1 t2 : FTransform)
    (hloc : t1.location = t2.location)
    (hfwd : t1.rotation.getForwardVector = t2.rotation.getForwardVector) :
    (∀ t : FTransform,
      (setTransform t).location = setVector3d t.location ∧
      (setTransform t).orientation = setVector3d t.rotation.getForwardVector) ∧
    setTransform t1 = setTransform t2 := by
  refine ⟨fun t => ⟨rfl, rfl⟩, ?_⟩
  unfold setTransform
  rw [hloc, hfwd]

/-- C5 witness: the sample transform and its rolled variant have different
rotations but equal location and forward vector, and encode identically. -/
theorem C5_transform_lossy_encoding_witness :
    ftEx.rotation ≠ ftRollEx.rotation ∧ setTransform ftEx = setTransform ftRollEx :=
  ⟨by decide,
   (C5_transform_lossy_encoding ftEx ftRollEx rfl
     (by norm_num [ftEx, ftRollEx, FQuat.getForwardVector])).2⟩

/-- C4: the effective wait is the session timeout when blocking and exactly
zero when non-blocking, and every blocking-flagged protocol operation
consults the transport only at that effective wait: two transports that agree
at `GetTimeOut TimeOut b` give identical results. -/
theorem C4_effective_timeout :
    (∀ t : Nat, GetTimeOut t true = t ∧ GetTimeOut t false = 0) ∧
    (∀ (self : CarlaServer) (b : Bool) (u v : Transport) (S : UCarlaSettings),
      u.readRequestNewEpisode (GetTimeOut self.TimeOut b) =
        v.readRequestNewEpisode (GetTimeOut self.TimeOut b) →
      CarlaServer.ReadNewEpisode self u S b =
        CarlaServer.ReadNewEpisode self v S b) ∧
    (∀ (self : CarlaServer) (b : Bool) (u v : Transport)
        (spots : List APlayerStart),
      (∀ scene, u.writeSceneDescription scene (GetTimeOut self.TimeOut b) =
        v.writeSceneDescription scene (GetTimeOut self.TimeOut b)) →
      CarlaServer.SendSceneDescription self u spots b =
        CarlaServer.SendSceneDescription self v spots b) ∧
    (∀ (self : CarlaServer) (b : Bool) (u v : Transport) (idx : Nat),
      u.readEpisodeStart (GetTimeOut self.TimeOut b) =
        v.readEpisodeStart (GetTimeOut self.TimeOut b) →
      CarlaServer.ReadEpisodeStart self u idx b =
        CarlaServer.ReadEpisodeStart self v idx b) ∧
    (∀ (self : CarlaServer) (b : Bool) (u v : Transport),
      (∀ r, u.writeEpisodeReady r (GetTimeOut self.TimeOut b) =
        v.writeEpisodeReady r (GetTimeOut self.TimeOut b)) →
      CarlaServer.SendEpisodeReady self u b =
        CarlaServer.SendEpisodeReady self v b) ∧
    (∀ (self : CarlaServer) (b : Bool) (u v : Transport)
        (P : ACarlaVehicleController),
      u.readControl (GetTimeOut self.TimeOut b) =
        v.readControl (GetTimeOut self.TimeOut b) →
      CarlaServer.ReadControl self u P b =
        CarlaServer.ReadControl self v P b) := by
  refine ⟨fun t => ⟨rfl, rfl⟩, ?_, ?_, ?_, ?_, ?_⟩
  · intro self b u v S h
    simp only [CarlaServer.ReadNewEpisode, h]
  · intro self b u v spots h
    simp only [CarlaServer.SendSceneDescription, h]
  · intro self b u v idx h
    simp only [CarlaServer.ReadEpisodeStart, h]
  · intro self b u v h
    simp only [CarlaServer.SendEpisodeReady, h]
  · intro self b u v P h
    simp only [CarlaServer.ReadControl, h]

/-- C4 witness: with blocking off, a transport whose episode-start read would
succeed after a wait behaves exactly like the transport that never has data,
because the effective wait is zero; and the sample timeout of 100 maps to 100
when blocking and 0 when not. -/
theorem C4_effective_timeout_witness :
    (GetTimeOut 100 true = 100 ∧ GetTimeOut 100 false = 0) ∧
    CarlaServer.ReadEpisodeStart srvEx trTimeoutA 5 false =
      CarlaServer.ReadEpisodeStart srvEx trTimeoutB 5 false :=
  ⟨C4_effective_timeout.1 100,
   C4_effective_timeout.2.2.2.1 srvEx false trTimeoutA trTimeoutB 5 rfl⟩

/-- `AddAgents` appends exactly one record per non-null actor, in order. -/
theorem AddAgents_append {α : Type} [AgentSource α] (Actors : List (Option α))
    (Agents : List carla_agent) (ty : Nat) :
    AddAgents Agents Actors ty =
      Agents ++ (Actors.filterMap id).map (fun a => agentOf a ty) := by
  induction Actors generalizing Agents with
  | nil => simp [AddAgents]
  | cons hd tl ih =>
    cases hd with
    | none =>
        show AddAgents Agents tl ty = _
        rw [ih]
        simp [List.filterMap_cons]
    | some a =>
        show AddAgents (Agents ++ [agentOf a ty]) tl ty = _
        rw [ih]
        simp [List.filterMap_cons]

/-- Mapping the type tag over a list of records that all carry tag `ty`
yields `ty` repeated once per record. -/
theorem map_type_replicate {α : Type} (l : List α) (f : α → carla_agent)
    (ty : Nat) (h : ∀ a, (f a).type = ty) :
    (l.map f).map (fun a => a.type) = List.replicate l.length ty := by
  induction l with
  | nil => rfl
  | cons hd tl ih => simp [List.replicate_succ, h, ih]

/-- The walker agent record carries the tag it was built with. -/
theorem agentOf_walker_type (a : ACharacter) (ty : Nat) :
    (agentOf a ty).type = ty := rfl

/-- The vehicle agent record carries the tag it was built with. -/
theorem agentOf_vehicle_type (a : ACarlaWheeledVehicle) (ty : Nat) :
    (agentOf a ty).type = ty := rfl

/-- C1: with both spawners present, `GetAgentInfo` builds the agent list as
whitelist walkers, then blacklist walkers (both tagged pedestrian), then
vehicles (tagged vehicle); the type tags are accordingly one pedestrian tag
per walker followed by one vehicle tag per vehicle, and the length is the
number of (non-null) walkers plus vehicles. -/
theorem C1_agent_list_order (gs : ACarlaGameState) (ws : WalkerSpawner)
    (vs : VehicleSpawner) (hw : gs.walkerSpawner = some ws)
    (hv : gs.vehicleSpawner = some vs) :
    GetAgentInfo gs [] =
      (ws.whiteList.filterMap id).map
          (fun a => agentOf a CARLA_SERVER_AGENT_PEDESTRIAN) ++
        (ws.blackList.filterMap id).map
          (fun a => agentOf a CARLA_SERVER_AGENT_PEDESTRIAN) ++
        (vs.vehicles.filterMap id).map
          (fun a => agentOf a CARLA_SERVER_AGENT_VEHICLE) ∧
    (GetAgentInfo gs []).map (fun a => a.type) =
      List.replicate
          ((ws.whiteList.filterMap id).length +
            (ws.blackList.filterMap id).length)
          CARLA_SERVER_AGENT_PEDESTRIAN ++
        List.replicate ((vs.vehicles.filterMap id).length)
          CARLA_SERVER_AGENT_VEHICLE ∧
    (GetAgentInfo gs []).length =
      (ws.whiteList.filterMap id).length +
        (ws.blackList.filterMap id).length +
        (vs.vehicles.filterMap id).length := by
  have hmain : GetAgentInfo gs [] =
      (ws.whiteList.filterMap id).map
          (fun a => agentOf a CARLA_SERVER_AGENT_PEDESTRIAN) ++
        (ws.blackList.filterMap id).map
          (fun a => agentOf a CARLA_SERVER_AGENT_PEDESTRIAN) ++
        (vs.vehicles.filterMap id).map
          (fun a => agentOf a CARLA_SERVER_AGENT_VEHICLE) := by
    simp only [GetAgentInfo, hw, hv]
    rw [AddAgents_append, AddAgents_append, AddAgents_append]
    simp [List.append_assoc]
  refine ⟨hmain, ?_, ?_⟩
  · rw [hmain]
    simp only [List.map_append]
    rw [map_type_replicate _ _ _ (agentOf_walker_type · _),
      map_type_replicate _ _ _ (agentOf_walker_type · _),
      map_type_replicate _ _ _ (agentOf_vehicle_type · _)]
    rw [List.replicate_add, List.append_assoc]
  · rw [hmain]
    simp [List.length_append]
    omega

/-- C1 witness: the sample state with 2 walkers (one whitelist, one
blacklist) and 1 vehicle yields an agent list of length 3 with type tags
pedestrian, pedestrian, vehicle. -/
theorem C1_agent_list_order_witness :
    (GetAgentInfo gsEx []).map (fun a => a.type) =
      [CARLA_SERVER_AGENT_PEDESTRIAN, CARLA_SERVER_AGENT_PEDESTRIAN,
        CARLA_SERVER_AGENT_VEHICLE] ∧
    (GetAgentInfo gsEx []).length = 3 := by
  have h := C1_agent_list_order gsEx ⟨[some walkerEx1], [some walkerEx2]⟩
    ⟨[some vehicleEx]⟩ rfl rfl
  refine ⟨?_, ?_⟩
  · rw [h.2.1]
    rfl
  · rw [h.2.2]
    rfl

/-- C2: the image-to-wire conversion copies width, height and effect type and
points the wire buffer at the pixel data when the source buffer is non-empty;
when the buffer is empty it leaves the wire image untouched (so a
zero-initialized wire image stays zeroed) and emits the empty-image warning. -/
theorem C2_image_conversion (cImage : carla_image) (uImage : FCapturedImage) :
    (uImage.BitMap.length > 0 →
      setImage cImage uImage =
        ({ width := uImage.SizeX
           height := uImage.SizeY
           type := uImage.PostProcessEffect
           data := some uImage.BitMap }, [])) ∧
    (uImage.BitMap.length = 0 →
      setImage cImage uImage =
        (cImage, [(LogLevel.warning, LogMsg.sendingEmptyImage)])) := by
  constructor
  · intro h
    simp [setImage, h]
  · intro h
    simp [setImage, h]

/-- C2 witness: converting the empty sample image leaves the zeroed wire
image zeroed and emits exactly the empty-image warning. -/
theorem C2_image_conversion_witness :
    imgEmptyEx.BitMap.length = 0 ∧
    setImage zeroCarlaImage imgEmptyEx =
      (zeroCarlaImage, [(LogLevel.warning, LogMsg.sendingEmptyImage)]) :=
  ⟨rfl, (C2_image_conversion zeroCarlaImage imgEmptyEx).2 rfl⟩

/-- C3: on a successful control read, the controller's autopilot flag is set
from the command; on the manual branch, a controller possessing no vehicle is
a fatal assertion (`none`, not a protocol `Error`), and otherwise all five
inputs — steer, throttle, brake, handbrake, reverse — are applied to the
possessed vehicle. -/
theorem C3_read_control_applies_command (self : CarlaServer) (tr : Transport)
    (Player : ACarlaVehicleController) (b : Bool)
    (hsucc : ParseErrorCode (tr.readControl (GetTimeOut self.TimeOut b)).1 =
      ErrorCode.Success) :
    ((tr.readControl (GetTimeOut self.TimeOut b)).2.autopilot = true →
      CarlaServer.ReadControl self tr Player b =
        some (ErrorCode.Success, Player.SetAutopilot true, [])) ∧
    ((tr.readControl (GetTimeOut self.TimeOut b)).2.autopilot = false →
      Player.possessedVehicle = none →
      CarlaServer.ReadControl self tr Player b = none) ∧
    (∀ v : ACarlaWheeledVehicle,
      (tr.readControl (GetTimeOut self.TimeOut b)).2.autopilot = false →
      Player.possessedVehicle = some v →
      CarlaServer.ReadControl self tr Player b =
        some (ErrorCode.Success,
          { autopilot := false
            possessedVehicle := some
              { v with
                SteeringInput :=
                  (tr.readControl (GetTimeOut self.TimeOut b)).2.steer
                ThrottleInput :=
                  (tr.readControl (GetTimeOut self.TimeOut b)).2.throttle
                BrakeInput :=
                  (tr.readControl (GetTimeOut self.TimeOut b)).2.brake
                HandbrakeInput :=
                  (tr.readControl (GetTimeOut self.TimeOut b)).2.hand_brake
                Reverse :=
                  (tr.readControl (GetTimeOut self.TimeOut b)).2.reverse } },
          [])) := by
  refine ⟨?_, ?_, ?_⟩
  · intro hauto
    simp [CarlaServer.ReadControl, hsucc, hauto,
      ACarlaVehicleController.SetAutopilot]
  · intro hauto hnone
    simp [CarlaServer.ReadControl, hsucc, hauto,
      ACarlaVehicleController.SetAutopilot, hnone]
  · intro v hauto hsome
    simp [CarlaServer.ReadControl, hsucc, hauto,
      ACarlaVehicleController.SetAutopilot, hsome]

/-- C3 witness: with a transport delivering the manual sample command
successfully and a controller possessing the sample vehicle, the command is
applied: autopilot off and all five inputs stored on the vehicle. -/
theorem C3_read_control_applies_command_witness :
    CarlaServer.ReadControl srvEx trCtrlEx playerCtrlEx true =
      some (ErrorCode.Success,
        { autopilot := false
          possessedVehicle := some
            { vehicleEx with
              SteeringInput := 1 / 2
              ThrottleInput := 3 / 4
              BrakeInput := 0
              HandbrakeInput := true
              Reverse := false } },
        []) := by
  have h := (C3_read_control_applies_command srvEx trCtrlEx playerCtrlEx true
    rfl).2.2 vehicleEx rfl rfl
  exact h

/-- C7: a non-blocking control read that yields TryAgain leaves the
controller (and hence the possessed vehicle) entirely unchanged, records the
no-control warning, and returns TryAgain without aborting (no fatal result,
no `Error`). -/
theorem C7_read_control_try_again (self : CarlaServer) (tr : Transport)
    (Player : ACarlaVehicleController)
    (h : ParseErrorCode (tr.readControl (GetTimeOut self.TimeOut false)).1 =
      ErrorCode.TryAgain) :
    CarlaServer.ReadControl self tr Player false =
      some (ErrorCode.TryAgain, Player,
        [(LogLevel.warning, LogMsg.noControlReceived)]) := by
  simp [CarlaServer.ReadControl, h]

/-- C7 witness: the base transport yields the try-again code, so a
non-blocking control read returns TryAgain with the warning and the sample
controller untouched. -/
theorem C7_read_control_try_again_witness :
    CarlaServer.ReadControl srvEx trBaseEx playerCtrlEx false =
      some (ErrorCode.TryAgain, playerCtrlEx,
        [(LogLevel.warning, LogMsg.noControlReceived)]) :=
  C7_read_control_try_again srvEx trBaseEx playerCtrlEx rfl

/-- C8: with zero captured images, `SendMeasurements` passes the null image
array with count 0 to the write, and if the transport write succeeds the call
returns Success: zero images is not an error condition. -/
theorem C8_zero_images (self : CarlaServer) (tr : Transport)
    (GameState : ACarlaGameState) (PlayerState : ACarlaPlayerState)
    (bAgents : Bool) (himg : PlayerState.images = []) :
    (CarlaServer.SendMeasurements self tr GameState PlayerState
      bAgents).images = none ∧
    (CarlaServer.SendMeasurements self tr GameState PlayerState
      bAgents).numberOfImages = 0 ∧
    (tr.writeMeasurements
        (CarlaServer.SendMeasurements self tr GameState PlayerState
          bAgents).values none 0 = CARLA_SERVER_SUCCESS →
      (CarlaServer.SendMeasurements self tr GameState PlayerState
        bAgents).ec = ErrorCode.Success) := by
  refine ⟨?_, ?_, ?_⟩
  · simp [CarlaServer.SendMeasurements, himg]
  · simp [CarlaServer.SendMeasurements, himg]
  · intro hw
    simp only [CarlaServer.SendMeasurements, himg] at hw ⊢
    simp only [List.length_nil, List.map_nil, gt_iff_lt, lt_irrefl,
      if_false, ite_false] at hw ⊢
    simp [ParseErrorCode, hw]

/-- C8 witness: sending measurements for the sample player state (no captured
images) over the base transport passes the null image array with count 0 and
returns Success. -/
theorem C8_zero_images_witness :
    (CarlaServer.SendMeasurements srvEx trBaseEx gsEx psNoImagesEx
      true).images = none ∧
    (CarlaServer.SendMeasurements srvEx trBaseEx gsEx psNoImagesEx
      true).numberOfImages = 0 ∧
    (CarlaServer.SendMeasurements srvEx trBaseEx gsEx psNoImagesEx
      true).ec = ErrorCode.Success := by
  have h := C8_zero_images srvEx trBaseEx gsEx psNoImagesEx true rfl
  exact ⟨h.1, h.2.1, h.2.2 rfl⟩

/-- C10: failed reads are atomic.  `ReadNewEpisode` leaves the settings
unchanged unless it returns Success (and on Success loads exactly the
received blob, truncated to its advertised length); `ReadEpisodeStart` leaves
the start-position index unchanged unless it returns Success. -/
theorem C10_failed_reads_atomic :
    (∀ (self : CarlaServer) (tr : Transport) (S : UCarlaSettings) (b : Bool),
      ((CarlaServer.ReadNewEpisode self tr S b).1 ≠ ErrorCode.Success →
        (CarlaServer.ReadNewEpisode self tr S b).2 = S) ∧
      ((CarlaServer.ReadNewEpisode self tr S b).1 = ErrorCode.Success →
        (CarlaServer.ReadNewEpisode self tr S b).2 =
          S.LoadSettingsFromString
            ((tr.readRequestNewEpisode
                (GetTimeOut self.TimeOut b)).2.ini_file.take
              (tr.readRequestNewEpisode
                (GetTimeOut self.TimeOut b)).2.ini_file_length))) ∧
    (∀ (self : CarlaServer) (tr : Transport) (idx : Nat) (b : Bool),
      (CarlaServer.ReadEpisodeStart self tr idx b).1 ≠ ErrorCode.Success →
        (CarlaServer.ReadEpisodeStart self tr idx b).2 = idx) := by
  constructor
  · intro self tr S b
    constructor
    · intro hne
      by_cases hc : ParseErrorCode
          (tr.readRequestNewEpisode (GetTimeOut self.TimeOut b)).1 =
          ErrorCode.Success
      · exact absurd (by simp [CarlaServer.ReadNewEpisode, hc]) hne
      · simp [CarlaServer.ReadNewEpisode, hc]
    · intro heq
      by_cases hc : ParseErrorCode
          (tr.readRequestNewEpisode (GetTimeOut self.TimeOut b)).1 =
          ErrorCode.Success
      · simp [CarlaServer.ReadNewEpisode, hc]
      · rw [CarlaServer.ReadNewEpisode] at heq
        simp only [hc, if_false, ite_false] at heq
  · intro self tr idx b hne
    by_cases hc : ParseErrorCode
        (tr.readEpisodeStart (GetTimeOut self.TimeOut b)).1 =
        ErrorCode.Success
    · exact absurd (by simp [CarlaServer.ReadEpisodeStart, hc]) hne
    · simp [CarlaServer.ReadEpisodeStart, hc]

/-- C10 witness: over the base transport, the new-episode read fails with
Error and leaves the sample settings unchanged, and the episode-start read
yields TryAgain and leaves the index 5 unchanged. -/
theorem C10_failed_reads_atomic_witness :
    (CarlaServer.ReadNewEpisode srvEx trBaseEx ⟨none⟩ true).1 =
      ErrorCode.Error ∧
    (CarlaServer.ReadNewEpisode srvEx trBaseEx ⟨none⟩ true).2 = ⟨none⟩ ∧
    (CarlaServer.ReadEpisodeStart srvEx trBaseEx 5 true).1 =
      ErrorCode.TryAgain ∧
    (CarlaServer.ReadEpisodeStart srvEx trBaseEx 5 true).2 = 5 := by
  refine ⟨rfl, ?_, rfl, ?_⟩
  · exact (C10_failed_reads_atomic.1 srvEx trBaseEx ⟨none⟩ true).1 (by decide)
  · exact C10_failed_reads_atomic.2 srvEx trBaseEx 5 true (by decide)

end Carla
